import Mathlib

/-!
Shallow embedding of the control core of `src/src/main.cpp` (ESP32 grout
pump controller).  The embedding models one iteration of `loop()` as a pure
function `tick : SysState → Inputs → SysState`.  All `digitalRead` results
sampled during one iteration are fields of `Inputs`; the several `millis()`
calls inside one iteration are modelled by the single field `Inputs.now`
(the loop body runs in well under a millisecond).  `unsigned long`
arithmetic on durations is modelled on `Nat`; the accumulating sum in
`updateStats` keeps the explicit `% 2^32` of 32-bit unsigned addition.
Side effects that do not touch control state (serial prints, WebSocket
broadcasts, `stateChanged` bookkeeping, `lastStatusUpdate`) are omitted.
-/

namespace GroutPump

/-- `enum SystemMode` from main.cpp. -/
inductive SystemMode where
  | MODE_MANUAL
  | MODE_AUTO_LOOP
deriving DecidableEq, Repr

/-- `enum CycleDirection` from main.cpp. -/
inductive CycleDirection where
  | CYCLE_IN
  | CYCLE_OUT
  | CYCLE_STOPPED
deriving DecidableEq, Repr

open SystemMode CycleDirection

/-- `const unsigned long DEBOUNCE_DELAY = 50;` -/
def DEBOUNCE_DELAY : Nat := 50

/-- `const unsigned long CYCLE_DELAY = 500;` -/
def CYCLE_DELAY : Nat := 500

/-- `const unsigned long DEFAULT_CYCLE_TIMEOUT = 30000;` -/
def DEFAULT_CYCLE_TIMEOUT : Nat := 30000

/-- `struct ButtonState` from main.cpp.  Levels are `Bool`s with
`true` = HIGH (released, pulled up) and `false` = LOW (pressed). -/
structure ButtonState where
  lastState : Bool
  currentState : Bool
  lastDebounceTime : Nat
  pressed : Bool
  lastPressTime : Nat
deriving DecidableEq, Repr

/-- The cycle statistics globals of main.cpp: `cycleDurations[20]`,
`cycleIndex`, `cycleCount`, `lastDuration`, `avgDuration`. -/
structure Stats where
  cycleDurations : List Nat
  cycleIndex : Nat
  cycleCount : Nat
  lastDuration : Nat
  avgDuration : Nat
deriving DecidableEq, Repr

/-- Modulus of 32-bit `unsigned long` arithmetic on the ESP32. -/
def ULONG_MOD : Nat := 2 ^ 32

/-- `unsigned long sum = 0; for (int i=0; i<n; i++) sum += l[i];`
with wrapping 32-bit addition. -/
def sumUL (l : List Nat) : Nat := l.foldl (fun a x => (a + x) % ULONG_MOD) 0

/-- `void updateStats(unsigned long duration)` from main.cpp. -/
def updateStats (st : Stats) (duration : Nat) : Stats :=
  if duration < 100 then st
  else
    let ds := st.cycleDurations.set st.cycleIndex duration
    let cnt := if st.cycleCount < 20 then st.cycleCount + 1 else st.cycleCount
    { cycleDurations := ds
      cycleIndex := (st.cycleIndex + 1) % 20
      cycleCount := cnt
      lastDuration := duration
      avgDuration := sumUL (ds.take cnt) / cnt }

/-- One sample of every input pin read during one `loop()` iteration,
plus the `millis()` clock. -/
structure Inputs where
  /-- `digitalRead(ESTOP_PIN) == HIGH`; `true` = triggered (NC loop open). -/
  estopRaw : Bool
  /-- `digitalRead(INPUT_A_PIN)`; `false` (LOW) = pressed. -/
  rawA : Bool
  /-- `digitalRead(INPUT_B_PIN)`; `false` (LOW) = pressed. -/
  rawB : Bool
  /-- `digitalRead(INPUT_C_PIN)`; `false` (LOW) = pressed. -/
  rawC : Bool
  /-- `digitalRead(INPUT_D_PIN)`; `false` (LOW) = pressed. -/
  rawD : Bool
  /-- `digitalRead(ENDSTOP_IN_PIN) == HIGH`; `true` = end stop IN triggered. -/
  endInRaw : Bool
  /-- `digitalRead(ENDSTOP_OUT_PIN) == HIGH`; `true` = end stop OUT triggered. -/
  endOutRaw : Bool
  /-- `millis()` during this iteration. -/
  now : Nat
deriving DecidableEq, Repr

/-- The mutable control state of main.cpp: the two SSR output latches
(`GPO1` drives retract/IN, `GPO2` drives extend/OUT), the mode and
direction state machines, the four debounced button records, the cycle
timestamps, the e-stop latch, the timeout configuration and the stroke
statistics. -/
structure SysState where
  gpo1 : Bool
  gpo2 : Bool
  currentMode : SystemMode
  cycleDirection : CycleDirection
  inputA : ButtonState
  inputB : ButtonState
  inputC : ButtonState
  inputD : ButtonState
  lastCycleTime : Nat
  cycleStartTime : Nat
  lastEndStopIn : Bool
  lastEndStopOut : Bool
  isEstopActive : Bool
  cycleTimeout : Nat
  timeoutEnabled : Bool
  stats : Stats
deriving DecidableEq, Repr

/-- `void updateButtonState(ButtonState* btn, int pin)` from main.cpp. -/
def updateButtonState (btn : ButtonState) (reading : Bool) (now : Nat) : ButtonState :=
  let btn1 := if reading ≠ btn.lastState then { btn with lastDebounceTime := now } else btn
  let btn2 :=
    if now - btn1.lastDebounceTime > DEBOUNCE_DELAY then
      if reading ≠ btn1.currentState then
        if reading = false then
          { btn1 with currentState := reading, pressed := true, lastPressTime := now }
        else
          { btn1 with currentState := reading, pressed := false }
      else btn1
    else btn1
  { btn2 with lastState := reading }

/-- The four `updateButtonState` calls and the end-stop debug tracking at
the top of the non-e-stop part of `loop()`. -/
def debouncePhase (s : SysState) (i : Inputs) : SysState :=
  { s with
    inputA := updateButtonState s.inputA i.rawA i.now
    inputB := updateButtonState s.inputB i.rawB i.now
    inputC := updateButtonState s.inputC i.rawC i.now
    inputD := updateButtonState s.inputD i.rawD i.now
    lastEndStopIn := i.endInRaw
    lastEndStopOut := i.endOutRaw }

/-- The "Start AUTO loop" block of `loop()` (reacting to `inputC.pressed`). -/
def startAutoPhase (s : SysState) (i : Inputs) : SysState :=
  if s.inputC.pressed then
    let s1 :=
      if s.currentMode ≠ MODE_AUTO_LOOP then
        { s with
          currentMode := MODE_AUTO_LOOP
          cycleDirection :=
            if s.cycleDirection = CYCLE_STOPPED then CYCLE_OUT else s.cycleDirection
          lastCycleTime := i.now
          cycleStartTime := i.now }
      else s
    { s1 with inputC := { s1.inputC with pressed := false } }
  else s

/-- The "Stop AUTO loop" block of `loop()` (reacting to `inputD.pressed`
or to a manual-button edge while in AUTO). -/
def stopAutoPhase (s : SysState) : SysState :=
  if s.inputD.pressed ∨ (s.currentMode = MODE_AUTO_LOOP ∧ (s.inputA.pressed ∨ s.inputB.pressed)) then
    let s1 :=
      if s.currentMode = MODE_AUTO_LOOP then
        { s with currentMode := MODE_MANUAL, gpo1 := false, gpo2 := false }
      else s
    { s1 with inputD := { s1.inputD with pressed := false } }
  else s

/-- Everything `loop()` does on a non-e-stop tick before dispatching to a
mode handler: clear the e-stop latch, debounce the inputs, process the
start/stop mode-change requests. -/
def commandStage (s : SysState) (i : Inputs) : SysState :=
  stopAutoPhase (startAutoPhase (debouncePhase { s with isEstopActive := false } i) i)

/-- The end-stop "pre-steer" block at the top of `handleManualMode()`:
hitting an end stop in manual mode makes the next auto move go the
opposite way. -/
def manualPreSteer (s : SysState) (i : Inputs) : SysState :=
  if i.endInRaw then { s with cycleDirection := CYCLE_OUT }
  else if i.endOutRaw then { s with cycleDirection := CYCLE_IN }
  else s

/-- `void handleManualMode()` from main.cpp. -/
def handleManualMode (s : SysState) (i : Inputs) : SysState :=
  let s1 := manualPreSteer s i
  if (i.rawA = false) ∧ (i.rawB = false) then
    { s1 with gpo1 := false, gpo2 := false }
  else if i.rawA = false then
    if ¬ i.endOutRaw then
      { s1 with gpo1 := false, gpo2 := true, cycleDirection := CYCLE_OUT }
    else
      { s1 with gpo1 := false, gpo2 := false }
  else if i.rawB = false then
    if ¬ i.endInRaw then
      { s1 with gpo2 := false, gpo1 := true, cycleDirection := CYCLE_IN }
    else
      { s1 with gpo2 := false, gpo1 := false }
  else
    { s1 with gpo1 := false, gpo2 := false }

/-- The shared body of the two safety branches of `handleAutoLoopMode()`
(dual end-stop fault, cycle timeout): outputs off, direction STOPPED,
back to MANUAL, pressed flags cleared. -/
def autoFaultStop (s : SysState) : SysState :=
  { s with gpo1 := false, gpo2 := false
           cycleDirection := CYCLE_STOPPED
           currentMode := MODE_MANUAL
           inputC := { s.inputC with pressed := false }
           inputD := { s.inputD with pressed := false } }

/-- The end-stop reversal block of `handleAutoLoopMode()`: on reaching the
end stop matching the current direction, record the stroke duration and
reverse, resetting both cycle timestamps. -/
def autoReversalStep (s : SysState) (i : Inputs) : SysState :=
  if s.cycleDirection = CYCLE_IN ∧ i.endInRaw then
    { s with
      stats :=
        if i.now - s.cycleStartTime > CYCLE_DELAY then
          updateStats s.stats (i.now - s.cycleStartTime - CYCLE_DELAY)
        else s.stats
      cycleDirection := CYCLE_OUT, lastCycleTime := i.now, cycleStartTime := i.now }
  else if s.cycleDirection = CYCLE_OUT ∧ i.endOutRaw then
    { s with
      stats :=
        if i.now - s.cycleStartTime > CYCLE_DELAY then
          updateStats s.stats (i.now - s.cycleStartTime - CYCLE_DELAY)
        else s.stats
      cycleDirection := CYCLE_IN, lastCycleTime := i.now, cycleStartTime := i.now }
  else s

/-- The output stage of `handleAutoLoopMode()`: both outputs off within
`CYCLE_DELAY` of the last direction change, otherwise the output matching
the direction (turning the opposite one off first). -/
def applyAutoOutputs (s : SysState) (now : Nat) : SysState :=
  if now - s.lastCycleTime < CYCLE_DELAY then
    { s with gpo1 := false, gpo2 := false }
  else
    match s.cycleDirection with
    | CYCLE_IN => { s with gpo2 := false, gpo1 := true }
    | CYCLE_OUT => { s with gpo1 := false, gpo2 := true }
    | CYCLE_STOPPED => { s with gpo1 := false, gpo2 := false }

/-- `void handleAutoLoopMode()` from main.cpp. -/
def handleAutoLoopMode (s : SysState) (i : Inputs) : SysState :=
  if i.endInRaw ∧ i.endOutRaw then
    autoFaultStop s
  else if s.timeoutEnabled ∧ i.now - s.cycleStartTime > s.cycleTimeout then
    autoFaultStop s
  else
    applyAutoOutputs (autoReversalStep s i) i.now

/-- The mode dispatch at the bottom of `loop()`. -/
def dispatchStage (s : SysState) (i : Inputs) : SysState :=
  if s.currentMode = MODE_MANUAL then handleManualMode s i else handleAutoLoopMode s i

/-- One iteration of `void loop()` from main.cpp (control state only). -/
def tick (s : SysState) (i : Inputs) : SysState :=
  if i.estopRaw then
    { s with gpo1 := false, gpo2 := false
             currentMode := MODE_MANUAL
             cycleDirection := CYCLE_STOPPED
             isEstopActive := true }
  else
    dispatchStage (commandStage s i) i

/-- Initial value of each `ButtonState` global: `{HIGH, HIGH, 0, false, 0}`. -/
def initButton : ButtonState :=
  { lastState := true, currentState := true, lastDebounceTime := 0
    pressed := false, lastPressTime := 0 }

/-- Initial cycle statistics (file-scope globals are zero-initialized). -/
def initStats : Stats :=
  { cycleDurations := List.replicate 20 0, cycleIndex := 0, cycleCount := 0
    lastDuration := 0, avgDuration := 0 }

/-- The state after `setup()`: outputs LOW, MANUAL mode, direction
STOPPED, buttons released, default timeout configuration. -/
def initState : SysState :=
  { gpo1 := false, gpo2 := false
    currentMode := MODE_MANUAL
    cycleDirection := CYCLE_STOPPED
    inputA := initButton, inputB := initButton
    inputC := initButton, inputD := initButton
    lastCycleTime := 0, cycleStartTime := 0
    lastEndStopIn := true, lastEndStopOut := true
    isEstopActive := false
    cycleTimeout := DEFAULT_CYCLE_TIMEOUT, timeoutEnabled := true
    stats := initStats }

/-- An input sample with the e-stop closed, every command switch released
(HIGH) and neither end stop triggered, at time `t`. -/
def idleInputs (t : Nat) : Inputs :=
  { estopRaw := false, rawA := true, rawB := true, rawC := true, rawD := true
    endInRaw := false, endOutRaw := false, now := t }

/-- Concrete AUTO state used to instantiate the reversal scenario:
running OUT since 1000 ms. -/
def c5S : SysState :=
  { initState with currentMode := MODE_AUTO_LOOP, cycleDirection := CYCLE_OUT
                   lastCycleTime := 1000, cycleStartTime := 1000 }

/-- End-stop-OUT triggers at 5000 ms. -/
def c5I : Inputs := { idleInputs 5000 with endOutRaw := true }

/-- A follow-up tick 600 ms after the reversal. -/
def c5I2 : Inputs := idleInputs 5600

/-- Tick 1 of the reachable counterexample trace: "start auto" goes LOW. -/
def c6I1 : Inputs := { idleInputs 100 with rawC := false }

/-- Tick 2: "start auto" stable LOW past the debounce window. -/
def c6I2 : Inputs := { idleInputs 200 with rawC := false }

/-- Tick 3: "start auto" released, manual-extend (A) goes LOW. -/
def c6I3 : Inputs := { idleInputs 800 with rawA := false }

/-- Tick 4: manual-extend (A) stable LOW past the debounce window. -/
def c6I4 : Inputs := { idleInputs 900 with rawA := false }

/-- The reachable state after ticks 1–3: AUTO, direction OUT, extend on. -/
def c6S3 : SysState := tick (tick (tick initState c6I1) c6I2) c6I3

/-- A MANUAL state with a latched "start auto" press edge. -/
def c6WS : SysState :=
  { initState with
    inputC := { lastState := false, currentState := false, lastDebounceTime := 0
                pressed := true, lastPressTime := 0 } }

/-- An idle input sample with the "start auto" switch held LOW. -/
def c6WI : Inputs := { idleInputs 10 with rawC := false }

/-- Folding `updateButtonState` over a sequence of (raw reading, millis)
samples of one input pin, as successive `loop()` iterations do. -/
def debounceRun (btn : ButtonState) (samples : List (Bool × Nat)) : ButtonState :=
  samples.foldl (fun b p => updateButtonState b p.1 p.2) btn

/-- The times of the press-edge events produced along a run: a press edge
is a sample on which the debounced stable level goes HIGH→LOW (exactly
when the code sets `pressed := true`). -/
def edgeTimes (btn : ButtonState) : List (Bool × Nat) → List Nat
  | [] => []
  | (r, t) :: rest =>
    if btn.currentState = true ∧ (updateButtonState btn r t).currentState = false then
      t :: edgeTimes (updateButtonState btn r t) rest
    else
      edgeTimes (updateButtonState btn r t) rest

/-- The sampled raw signal oscillates faster than the debounce window:
every sample lies within `DEBOUNCE_DELAY` of the most recent observed raw
change (`lvl` and `tc` track the level and time of that change, seeded
from the channel's `lastState` and `lastDebounceTime`). -/
def fastOsc (lvl : Bool) (tc : Nat) : List (Bool × Nat) → Bool
  | [] => true
  | (r, t) :: rest =>
    if r = lvl then decide (t - tc ≤ DEBOUNCE_DELAY) && fastOsc lvl tc rest
    else fastOsc r t rest

/-- The sample times are chronological: nondecreasing and at least `t0`. -/
def chron (t0 : Nat) : List (Bool × Nat) → Bool
  | [] => true
  | (_, t) :: rest => decide (t0 ≤ t) && chron t rest

/-- A raw square wave sampled every 10 ms, far faster than the window. -/
def oscSamples : List (Bool × Nat) := [(false, 10), (true, 20), (false, 30), (true, 40)]

/-- A debounced button record holding a latched press edge. -/
def pressedButton : ButtonState :=
  { lastState := false, currentState := false, lastDebounceTime := 0
    pressed := true, lastPressTime := 0 }

/-- MANUAL state with direction IN retained and a latched start edge. -/
def c7S : SysState := { initState with cycleDirection := CYCLE_IN, inputC := pressedButton }

/-- Start-auto switch held LOW at 10 ms. -/
def c7I : Inputs := { idleInputs 10 with rawC := false }

/-- AUTO state with direction OUT and a latched stop edge. -/
def c7S2 : SysState :=
  { initState with currentMode := MODE_AUTO_LOOP, cycleDirection := CYCLE_OUT
                   inputD := pressedButton }

/-- Stop-auto switch held LOW at 20 ms. -/
def c7I2 : Inputs := { idleInputs 20 with rawD := false }

/-- Well-formedness of the statistics globals, as maintained by the code
from boot: 20 slots, index in range, count capped, and while the buffer
is filling the write index equals the fill count. -/
def StatsWf (st : Stats) : Prop :=
  st.cycleDurations.length = 20 ∧ st.cycleIndex < 20 ∧ st.cycleCount ≤ 20 ∧
  (st.cycleCount < 20 → st.cycleIndex = st.cycleCount)

/-- The "history" view `getStatusJson()` exposes: the filled slots ordered
oldest to newest (starting at slot 0 while filling, at `cycleIndex` once
the buffer is full). -/
def histList (st : Stats) : List Nat :=
  if st.cycleCount = 0 then []
  else
    (List.range st.cycleCount).map
      (fun k => st.cycleDurations.getD
        (((if st.cycleCount < 20 then 0 else st.cycleIndex) + k) % 20) 0)

/-! ### Helper lemmas -/

lemma tick_estop_eq (s : SysState) (i : Inputs) (h : i.estopRaw = true) :
    tick s i =
      { s with gpo1 := false, gpo2 := false
               currentMode := MODE_MANUAL
               cycleDirection := CYCLE_STOPPED
               isEstopActive := true } := by
  unfold tick
  simp [h]

lemma tick_noestop_eq (s : SysState) (i : Inputs) (h : i.estopRaw = false) :
    tick s i = dispatchStage (commandStage s i) i := by
  unfold tick
  simp [h]

lemma handleManualMode_mode (s : SysState) (i : Inputs) :
    (handleManualMode s i).currentMode = s.currentMode := by
  unfold handleManualMode manualPreSteer
  split_ifs <;> rfl

lemma applyAutoOutputs_fields (s : SysState) (now : Nat) :
    (applyAutoOutputs s now).cycleDirection = s.cycleDirection ∧
    (applyAutoOutputs s now).lastCycleTime = s.lastCycleTime ∧
    (applyAutoOutputs s now).currentMode = s.currentMode := by
  unfold applyAutoOutputs
  split_ifs with h
  · exact ⟨rfl, rfl, rfl⟩
  · split <;> exact ⟨rfl, rfl, rfl⟩

lemma autoReversalStep_lct_cases (s : SysState) (i : Inputs) :
    (autoReversalStep s i).lastCycleTime = i.now ∨ autoReversalStep s i = s := by
  unfold autoReversalStep
  split_ifs <;> first | exact Or.inl rfl | exact Or.inr rfl

lemma handleManualMode_gpo_mutex (s : SysState) (i : Inputs) :
    ¬((handleManualMode s i).gpo1 = true ∧ (handleManualMode s i).gpo2 = true) := by
  unfold handleManualMode
  split_ifs <;> simp

lemma handleAutoLoopMode_gpo_mutex (s : SysState) (i : Inputs) :
    ¬((handleAutoLoopMode s i).gpo1 = true ∧ (handleAutoLoopMode s i).gpo2 = true) := by
  unfold handleAutoLoopMode
  split_ifs with h1 h2
  · simp [autoFaultStop]
  · simp [autoFaultStop]
  · unfold applyAutoOutputs
    split_ifs with h3
    · simp
    · split <;> simp

lemma tick_auto_eq (s : SysState) (i : Inputs)
    (hE : i.estopRaw = false)
    (hM : (commandStage s i).currentMode = MODE_AUTO_LOOP) :
    tick s i = handleAutoLoopMode (commandStage s i) i := by
  unfold tick dispatchStage
  simp [hE, hM]

lemma handleAutoLoopMode_normal (s : SysState) (i : Inputs)
    (hD : ¬(i.endInRaw = true ∧ i.endOutRaw = true))
    (hT : ¬(s.timeoutEnabled = true ∧ i.now - s.cycleStartTime > s.cycleTimeout)) :
    handleAutoLoopMode s i = applyAutoOutputs (autoReversalStep s i) i.now := by
  unfold handleAutoLoopMode
  rw [if_neg hD, if_neg hT]

lemma startAutoPhase_of_auto (s : SysState) (i : Inputs)
    (h : s.currentMode = MODE_AUTO_LOOP) :
    startAutoPhase s i =
      if s.inputC.pressed then { s with inputC := { s.inputC with pressed := false } }
      else s := by
  unfold startAutoPhase
  simp [h]

lemma stopAutoPhase_auto_eq (s : SysState)
    (hM : (stopAutoPhase s).currentMode = MODE_AUTO_LOOP) :
    stopAutoPhase s = s := by
  unfold stopAutoPhase at hM ⊢
  split_ifs at hM ⊢ with h1 h2
  · exact absurd hM h2
  · rfl

lemma commandStage_fields_of_auto (s : SysState) (i : Inputs)
    (hA : s.currentMode = MODE_AUTO_LOOP)
    (hM : (commandStage s i).currentMode = MODE_AUTO_LOOP) :
    (commandStage s i).cycleDirection = s.cycleDirection ∧
    (commandStage s i).lastCycleTime = s.lastCycleTime ∧
    (commandStage s i).cycleStartTime = s.cycleStartTime ∧
    (commandStage s i).timeoutEnabled = s.timeoutEnabled ∧
    (commandStage s i).cycleTimeout = s.cycleTimeout := by
  unfold commandStage at hM ⊢
  have hdA : (debouncePhase { s with isEstopActive := false } i).currentMode
      = MODE_AUTO_LOOP := hA
  rw [startAutoPhase_of_auto _ i hdA] at hM ⊢
  split_ifs at hM ⊢ with hc
  · rw [stopAutoPhase_auto_eq _ hM]
    exact ⟨rfl, rfl, rfl, rfl, rfl⟩
  · rw [stopAutoPhase_auto_eq _ hM]
    exact ⟨rfl, rfl, rfl, rfl, rfl⟩

lemma autoReversalStep_out (s : SysState) (i : Inputs)
    (hDir : s.cycleDirection = CYCLE_OUT) (hOut : i.endOutRaw = true) :
    (autoReversalStep s i).cycleDirection = CYCLE_IN ∧
    (autoReversalStep s i).lastCycleTime = i.now ∧
    (autoReversalStep s i).cycleStartTime = i.now ∧
    (autoReversalStep s i).currentMode = s.currentMode ∧
    (autoReversalStep s i).timeoutEnabled = s.timeoutEnabled ∧
    (autoReversalStep s i).cycleTimeout = s.cycleTimeout := by
  unfold autoReversalStep
  rw [if_neg (by simp [hDir]), if_pos ⟨hDir, hOut⟩]
  exact ⟨rfl, rfl, rfl, rfl, rfl, rfl⟩

lemma autoReversalStep_skip (s : SysState) (i : Inputs)
    (h1 : ¬(s.cycleDirection = CYCLE_IN ∧ i.endInRaw = true))
    (h2 : ¬(s.cycleDirection = CYCLE_OUT ∧ i.endOutRaw = true)) :
    autoReversalStep s i = s := by
  unfold autoReversalStep
  rw [if_neg h1, if_neg h2]

lemma applyAutoOutputs_delay (s : SysState) (now : Nat)
    (h : now - s.lastCycleTime < CYCLE_DELAY) :
    applyAutoOutputs s now = { s with gpo1 := false, gpo2 := false } := by
  unfold applyAutoOutputs
  rw [if_pos h]

lemma applyAutoOutputs_in (s : SysState) (now : Nat)
    (h : ¬(now - s.lastCycleTime < CYCLE_DELAY))
    (hd : s.cycleDirection = CYCLE_IN) :
    applyAutoOutputs s now = { s with gpo2 := false, gpo1 := true } := by
  unfold applyAutoOutputs
  rw [if_neg h, hd]

lemma commandStage_entry (s : SysState) (i : Inputs)
    (hMan : s.currentMode = MODE_MANUAL)
    (hM : (commandStage s i).currentMode = MODE_AUTO_LOOP) :
    (commandStage s i).lastCycleTime = i.now ∧
    (commandStage s i).cycleStartTime = i.now ∧
    (commandStage s i).cycleDirection =
      (if s.cycleDirection = CYCLE_STOPPED then CYCLE_OUT else s.cycleDirection) := by
  unfold commandStage at hM ⊢
  set d := debouncePhase { s with isEstopActive := false } i with hd
  have hdd : s.cycleDirection = d.cycleDirection := rfl
  rw [hdd]
  have hdMan : d.currentMode = MODE_MANUAL := hMan
  unfold startAutoPhase at hM ⊢
  split_ifs at hM ⊢ with hc hm hdir
  all_goals try
    { have heq := stopAutoPhase_auto_eq _ hM
      rw [heq]
      exact ⟨rfl, rfl, rfl⟩ }
  all_goals try
    { rw [hdMan] at hm
      exact absurd hm (by decide) }
  all_goals
    { have heq := stopAutoPhase_auto_eq _ hM
      rw [heq] at hM
      rw [hdMan] at hM
      exact absurd hM (by decide) }

lemma startAutoPhase_auto_fields (s : SysState) (i : Inputs)
    (h : s.currentMode = MODE_AUTO_LOOP) :
    (startAutoPhase s i).currentMode = s.currentMode ∧
    (startAutoPhase s i).cycleDirection = s.cycleDirection ∧
    (startAutoPhase s i).inputA = s.inputA ∧
    (startAutoPhase s i).inputB = s.inputB ∧
    (startAutoPhase s i).inputD = s.inputD ∧
    (startAutoPhase s i).gpo1 = s.gpo1 ∧
    (startAutoPhase s i).gpo2 = s.gpo2 := by
  rw [startAutoPhase_of_auto s i h]
  split_ifs with hc
  · exact ⟨rfl, rfl, rfl, rfl, rfl, rfl, rfl⟩
  · exact ⟨rfl, rfl, rfl, rfl, rfl, rfl, rfl⟩

lemma stopAutoPhase_exit (s : SysState)
    (hAuto : s.currentMode = MODE_AUTO_LOOP)
    (hcond : s.inputD.pressed = true ∨
      (s.currentMode = MODE_AUTO_LOOP ∧ (s.inputA.pressed = true ∨ s.inputB.pressed = true))) :
    (stopAutoPhase s).currentMode = MODE_MANUAL ∧
    (stopAutoPhase s).cycleDirection = s.cycleDirection ∧
    (stopAutoPhase s).gpo1 = false ∧
    (stopAutoPhase s).gpo2 = false := by
  unfold stopAutoPhase
  rw [if_pos hcond, if_pos hAuto]
  exact ⟨rfl, rfl, rfl, rfl⟩

lemma commandStage_stop_edge (s : SysState) (i : Inputs)
    (hAuto : s.currentMode = MODE_AUTO_LOOP)
    (hD : (updateButtonState s.inputD i.rawD i.now).pressed = true) :
    (commandStage s i).currentMode = MODE_MANUAL ∧
    (commandStage s i).cycleDirection = s.cycleDirection ∧
    (commandStage s i).gpo1 = false ∧
    (commandStage s i).gpo2 = false := by
  unfold commandStage
  set d := debouncePhase { s with isEstopActive := false } i with hd
  have hdA : d.currentMode = MODE_AUTO_LOOP := hAuto
  obtain ⟨q1, q2, q3, q4, q5, q6, q7⟩ := startAutoPhase_auto_fields d i hdA
  have hDd : d.inputD.pressed = true := hD
  have hcond : (startAutoPhase d i).inputD.pressed = true ∨
      ((startAutoPhase d i).currentMode = MODE_AUTO_LOOP ∧
       ((startAutoPhase d i).inputA.pressed = true ∨
        (startAutoPhase d i).inputB.pressed = true)) := by
    refine Or.inl ?_
    rw [q5]
    exact hDd
  obtain ⟨r1, r2, r3, r4⟩ := stopAutoPhase_exit (startAutoPhase d i) (q1.trans hdA) hcond
  refine ⟨r1, ?_, r3, r4⟩
  rw [r2, q2, hd]
  rfl

lemma commandStage_start_edge (s : SysState) (i : Inputs)
    (hMan : s.currentMode = MODE_MANUAL)
    (hC : (updateButtonState s.inputC i.rawC i.now).pressed = true)
    (hA : (updateButtonState s.inputA i.rawA i.now).pressed = false)
    (hB : (updateButtonState s.inputB i.rawB i.now).pressed = false)
    (hD : (updateButtonState s.inputD i.rawD i.now).pressed = false) :
    (commandStage s i).currentMode = MODE_AUTO_LOOP ∧
    (commandStage s i).cycleDirection =
      (if s.cycleDirection = CYCLE_STOPPED then CYCLE_OUT else s.cycleDirection) ∧
    (commandStage s i).lastCycleTime = i.now ∧
    (commandStage s i).cycleStartTime = i.now := by
  unfold commandStage debouncePhase startAutoPhase stopAutoPhase
  simp [hC, hA, hB, hD, hMan]

lemma handleManualMode_idle (s : SysState) (i : Inputs)
    (hA : i.rawA = true) (hB : i.rawB = true)
    (hIn : i.endInRaw = false) (hOut : i.endOutRaw = false) :
    handleManualMode s i = { s with gpo1 := false, gpo2 := false } := by
  unfold handleManualMode manualPreSteer
  simp [hA, hB, hIn, hOut]

lemma autoReversalStep_dir_ne_stopped (s : SysState) (i : Inputs)
    (h : s.cycleDirection ≠ CYCLE_STOPPED) :
    (autoReversalStep s i).cycleDirection ≠ CYCLE_STOPPED := by
  unfold autoReversalStep
  split_ifs <;> simp_all

lemma updateButtonState_char (b : ButtonState) (r : Bool) (t : Nat) :
    ((updateButtonState b r t).lastState = r) ∧
    ((updateButtonState b r t).lastDebounceTime
      = if r = b.lastState then b.lastDebounceTime else t) ∧
    ((updateButtonState b r t).currentState = b.currentState ∨
     ((updateButtonState b r t).currentState = r ∧ r = b.lastState ∧
      DEBOUNCE_DELAY < t - b.lastDebounceTime)) := by
  unfold updateButtonState
  by_cases hr : r = b.lastState <;> by_cases hg : t - b.lastDebounceTime > DEBOUNCE_DELAY <;>
    by_cases hc : r = b.currentState <;> by_cases hf : r = false <;>
    simp_all [DEBOUNCE_DELAY]
  all_goals rw [if_neg (by omega)]
  all_goals simp_all

lemma updateButtonState_no_window (b : ButtonState) (r : Bool) (t : Nat)
    (h : r = b.lastState → t - b.lastDebounceTime ≤ DEBOUNCE_DELAY) :
    (updateButtonState b r t).currentState = b.currentState ∧
    (updateButtonState b r t).pressed = b.pressed ∧
    (updateButtonState b r t).lastState = r ∧
    (updateButtonState b r t).lastDebounceTime
      = (if r = b.lastState then b.lastDebounceTime else t) := by
  unfold updateButtonState
  by_cases hr : r = b.lastState
  · have hle : t - b.lastDebounceTime ≤ DEBOUNCE_DELAY := h hr
    have hg : ¬(t - b.lastDebounceTime > DEBOUNCE_DELAY) := by omega
    simp [hr, hg]
  · simp [hr, DEBOUNCE_DELAY]

lemma chron_weaken (t1 t : Nat) (l : List (Bool × Nat))
    (h : chron t l = true) (hle : t1 ≤ t) : chron t1 l = true := by
  cases l with
  | nil => rfl
  | cons q r =>
    obtain ⟨rq, tq⟩ := q
    rw [chron, Bool.and_eq_true, decide_eq_true_eq] at h ⊢
    exact ⟨le_trans hle h.1, h.2⟩

lemma fastOsc_no_change (samples : List (Bool × Nat)) (b : ButtonState)
    (h : fastOsc b.lastState b.lastDebounceTime samples = true) :
    (debounceRun b samples).currentState = b.currentState ∧
    (debounceRun b samples).pressed = b.pressed ∧
    edgeTimes b samples = [] := by
  induction samples generalizing b with
  | nil => exact ⟨rfl, rfl, rfl⟩
  | cons p rest ih =>
    obtain ⟨r, t⟩ := p
    have hrun : debounceRun b ((r, t) :: rest) = debounceRun (updateButtonState b r t) rest := rfl
    by_cases hr : r = b.lastState
    · rw [fastOsc, if_pos hr, Bool.and_eq_true, decide_eq_true_eq] at h
      obtain ⟨h1, h2⟩ := h
      obtain ⟨c1, c2, c3, c4⟩ := updateButtonState_no_window b r t (fun _ => h1)
      have hrest : fastOsc (updateButtonState b r t).lastState
          (updateButtonState b r t).lastDebounceTime rest = true := by
        rw [c3, c4, if_pos hr, hr]
        exact h2
      obtain ⟨i1, i2, i3⟩ := ih (updateButtonState b r t) hrest
      have hcond : ¬(b.currentState = true ∧ (updateButtonState b r t).currentState = false) := by
        rw [c1]
        rintro ⟨x, y⟩
        rw [x] at y
        cases y
      refine ⟨?_, ?_, ?_⟩
      · rw [hrun, i1, c1]
      · rw [hrun, i2, c2]
      · rw [edgeTimes, if_neg hcond]
        exact i3
    · rw [fastOsc, if_neg hr] at h
      obtain ⟨c1, c2, c3, c4⟩ := updateButtonState_no_window b r t (fun hx => absurd hx hr)
      have hrest : fastOsc (updateButtonState b r t).lastState
          (updateButtonState b r t).lastDebounceTime rest = true := by
        rw [c3, c4, if_neg hr]
        exact h
      obtain ⟨i1, i2, i3⟩ := ih (updateButtonState b r t) hrest
      have hcond : ¬(b.currentState = true ∧ (updateButtonState b r t).currentState = false) := by
        rw [c1]
        rintro ⟨x, y⟩
        rw [x] at y
        cases y
      refine ⟨?_, ?_, ?_⟩
      · rw [hrun, i1, c1]
      · rw [hrun, i2, c2]
      · rw [edgeTimes, if_neg hcond]
        exact i3

lemma edgeTimes_lb (samples : List (Bool × Nat)) (b : ButtonState) (t1 : Nat)
    (hch : chron t1 samples = true)
    (hInv : b.currentState = true ∨ b.lastState = true → t1 ≤ b.lastDebounceTime) :
    ∀ t2 ∈ edgeTimes b samples, t1 + DEBOUNCE_DELAY < t2 := by
  induction samples generalizing b t1 with
  | nil =>
    intro t2 ht2
    cases ht2
  | cons p rest ih =>
    obtain ⟨r, t⟩ := p
    rw [chron, Bool.and_eq_true, decide_eq_true_eq] at hch
    obtain ⟨hle, hch2⟩ := hch
    obtain ⟨c1, c2, c3⟩ := updateButtonState_char b r t
    intro t2 ht2
    by_cases hedge : b.currentState = true ∧ (updateButtonState b r t).currentState = false
    · rw [edgeTimes, if_pos hedge] at ht2
      rcases c3 with hsame | ⟨hcr, hrl, hgt⟩
      · exfalso
        rw [hedge.1] at hsame
        rw [hedge.2] at hsame
        cases hsame
      · have hrf : r = false := hcr.symm.trans hedge.2
        have hbl : t1 ≤ b.lastDebounceTime := hInv (Or.inl hedge.1)
        rcases List.mem_cons.1 ht2 with rfl | ht2a
        · omega
        · refine ih (updateButtonState b r t) t1 (chron_weaken t1 t rest hch2 hle) ?_ t2 ht2a
          intro hx
          rcases hx with x | x
          · rw [hedge.2] at x
            cases x
          · rw [c1, hrf] at x
            cases x
    · rw [edgeTimes, if_neg hedge] at ht2
      refine ih (updateButtonState b r t) t1 (chron_weaken t1 t rest hch2 hle) ?_ t2 ht2
      intro hx
      rw [c2]
      by_cases hr : r = b.lastState
      · rw [if_pos hr]
        apply hInv
        rcases hx with x | x
        · rcases c3 with hsame | ⟨hcr, hrl, hgt⟩
          · rw [hsame] at x
            exact Or.inl x
          · have hrt : r = true := hcr.symm.trans x
            rw [hr] at hrt
            exact Or.inr hrt
        · have hrt : r = true := c1.symm.trans x
          rw [hr] at hrt
          exact Or.inr hrt
      · rw [if_neg hr]
        exact hle

lemma edgeTimes_chain (samples : List (Bool × Nat)) (b : ButtonState) (t0 : Nat)
    (hch : chron t0 samples = true) :
    List.Chain' (fun x y => x + DEBOUNCE_DELAY < y) (edgeTimes b samples) := by
  induction samples generalizing b t0 with
  | nil => exact List.chain'_nil
  | cons p rest ih =>
    obtain ⟨r, t⟩ := p
    rw [chron, Bool.and_eq_true, decide_eq_true_eq] at hch
    obtain ⟨hle, hch2⟩ := hch
    by_cases hedge : b.currentState = true ∧ (updateButtonState b r t).currentState = false
    · rw [edgeTimes, if_pos hedge]
      refine List.chain'_cons'.2 ⟨?_, ih (updateButtonState b r t) t hch2⟩
      intro y hy
      have hmem : y ∈ edgeTimes (updateButtonState b r t) rest := List.mem_of_mem_head? hy
      obtain ⟨c1, c2, c3⟩ := updateButtonState_char b r t
      rcases c3 with hsame | ⟨hcr, hrl, hgt⟩
      · exfalso
        rw [hedge.1] at hsame
        rw [hedge.2] at hsame
        cases hsame
      · have hrf : r = false := hcr.symm.trans hedge.2
        refine edgeTimes_lb rest (updateButtonState b r t) t hch2 ?_ y hmem
        intro hx
        rcases hx with x | x
        · rw [hedge.2] at x
          cases x
        · rw [c1, hrf] at x
          cases x
    · rw [edgeTimes, if_neg hedge]
      exact ih (updateButtonState b r t) t hch2

lemma sumUL_aux (l : List Nat) : ∀ a, a < ULONG_MOD →
    l.foldl (fun a x => (a + x) % ULONG_MOD) a = (a + l.sum) % ULONG_MOD := by
  induction l with
  | nil =>
    intro a ha
    simp [Nat.mod_eq_of_lt ha]
  | cons x rest ih =>
    intro a ha
    rw [List.foldl_cons, ih ((a + x) % ULONG_MOD) (Nat.mod_lt _ (by decide)),
      List.sum_cons, Nat.mod_add_mod, Nat.add_assoc]

lemma sumUL_eq (l : List Nat) : sumUL l = l.sum % ULONG_MOD := by
  cases l with
  | nil => rfl
  | cons x rest =>
    unfold sumUL
    rw [List.foldl_cons, sumUL_aux rest ((0 + x) % ULONG_MOD) (Nat.mod_lt _ (by decide)),
      Nat.mod_add_mod, List.sum_cons, Nat.zero_add]

lemma map_getD_range (l : List Nat) (n : Nat) (h : n ≤ l.length) :
    (List.range n).map (fun k => l.getD k 0) = l.take n := by
  apply List.ext_getElem
  · rw [List.length_map, List.length_range, List.length_take]
    omega
  · intro k h1 h2
    rw [List.length_map, List.length_range] at h1
    simp only [List.getElem_map, List.getElem_range, List.getElem_take]
    exact List.getD_eq_getElem l 0 (by omega)

lemma take_set_append (l : List Nat) (n : Nat) (d : Nat) (h : n < l.length) :
    (l.set n d).take (n + 1) = l.take n ++ [d] := by
  rw [List.take_succ, List.set_take, List.set_eq_of_length_le
      (by rw [List.length_take]; omega)]
  congr 1
  rw [List.getElem?_set]
  simp [h]


lemma histList_start_zero (st : Stats) (hlen : st.cycleDurations.length = 20)
    (hle : st.cycleCount ≤ 20) (hidx0 : ¬ st.cycleCount < 20 → st.cycleIndex = 0) :
    histList st = st.cycleDurations.take st.cycleCount := by
  unfold histList
  by_cases h0 : st.cycleCount = 0
  · rw [if_pos h0, h0]
    rfl
  · rw [if_neg h0]
    by_cases hc : st.cycleCount < 20
    · rw [if_pos hc]
      have hcg : ∀ k ∈ List.range st.cycleCount,
          st.cycleDurations.getD ((0 + k) % 20) 0 = st.cycleDurations.getD k 0 := by
        intro k hk
        rw [List.mem_range] at hk
        congr 1
        omega
      rw [List.map_congr_left hcg, map_getD_range _ _ (by omega)]
    · rw [if_neg hc, hidx0 hc]
      have hcg : ∀ k ∈ List.range st.cycleCount,
          st.cycleDurations.getD ((0 + k) % 20) 0 = st.cycleDurations.getD k 0 := by
        intro k hk
        rw [List.mem_range] at hk
        congr 1
        omega
      rw [List.map_congr_left hcg, map_getD_range _ _ (by omega)]

lemma histList_full (st : Stats) (hlen : st.cycleDurations.length = 20)
    (h20 : st.cycleCount = 20) :
    histList st = st.cycleDurations.rotate st.cycleIndex := by
  unfold histList
  rw [if_neg (by omega), if_neg (by omega), h20]
  apply List.ext_getElem
  · rw [List.length_map, List.length_range, List.length_rotate, hlen]
  · intro k h1 h2
    rw [List.length_map, List.length_range] at h1
    simp only [List.getElem_map, List.getElem_range]
    rw [List.getElem_rotate]
    rw [List.getD_eq_getElem st.cycleDurations 0 (by rw [hlen]; omega)]
    congr 1
    rw [hlen]
    omega

lemma rotate_set_tail (ds : List Nat) (idx d : Nat) (hlen : ds.length = 20)
    (hidx : idx < 20) :
    (ds.set idx d).rotate ((idx + 1) % 20) = (ds.rotate idx).tail ++ [d] := by
  apply List.ext_getElem?
  intro n
  by_cases hn : n < 20
  · rw [List.getElem?_rotate (by rw [List.length_set, hlen]; exact hn),
      List.length_set, hlen, List.getElem?_set,
      List.getElem?_append, List.getElem?_tail,
      List.length_tail, List.length_rotate, hlen]
    by_cases hk : n < 19
    · rw [if_pos hk, if_neg (by omega),
        List.getElem?_rotate (by rw [hlen]; omega), hlen]
      have hix : (n + (idx + 1) % 20) % 20 = (n + 1 + idx) % 20 := by omega
      rw [hix]
    · have h19 : n = 19 := by omega
      subst h19
      rw [if_pos (by omega), if_pos hidx, if_neg (by omega)]
      rfl
  · rw [List.getElem?_eq_none (by rw [List.length_rotate, List.length_set, hlen]; omega),
      List.getElem?_eq_none (by
        rw [List.length_append, List.length_tail, List.length_rotate, hlen]
        simp
        omega)]

/-! ### Claim theorems -/

/-- C1: on every tick, from every state and for every input sample, the
two actuator outputs (GPO2 = extend, GPO1 = retract) are never both
asserted after the tick. -/
theorem c1_outputs_never_both_asserted (s : SysState) (i : Inputs) :
    ¬((tick s i).gpo1 = true ∧ (tick s i).gpo2 = true) := by
  unfold tick
  split_ifs with h
  · simp
  · unfold dispatchStage
    split_ifs with h2
    · exact handleManualMode_gpo_mutex _ _
    · exact handleAutoLoopMode_gpo_mutex _ _

/-- Witness for C1 at a concrete state and input. -/
theorem c1_outputs_never_both_asserted_witness :
    ¬((tick initState (Inputs.mk false true true true true false false 0)).gpo1 = true ∧
      (tick initState (Inputs.mk false true true true true false false 0)).gpo2 = true) :=
  c1_outputs_never_both_asserted initState (Inputs.mk false true true true true false false 0)

/-- C2: on any tick whose e-stop input reads triggered, the tick forces
both outputs off, sets mode to MANUAL and direction to STOPPED, latches
the e-stop flag, and changes nothing else (all other processing for that
tick is suppressed). -/
theorem c2_estop_forces_safe_state (s : SysState) (i : Inputs)
    (h : i.estopRaw = true) :
    tick s i =
      { s with gpo1 := false, gpo2 := false
               currentMode := MODE_MANUAL
               cycleDirection := CYCLE_STOPPED
               isEstopActive := true } := by
  unfold tick
  simp [h]

/-- C3: on any non-e-stop tick that dispatches to AUTO-mode handling with
both end-stop sensors reading triggered, that same tick forces both
outputs off, mode MANUAL and direction STOPPED, regardless of the prior
direction. -/
theorem c3_dual_endstop_fault_stops (s : SysState) (i : Inputs)
    (hE : i.estopRaw = false)
    (hM : (commandStage s i).currentMode = MODE_AUTO_LOOP)
    (hIn : i.endInRaw = true) (hOut : i.endOutRaw = true) :
    (tick s i).currentMode = MODE_MANUAL ∧
    (tick s i).cycleDirection = CYCLE_STOPPED ∧
    (tick s i).gpo1 = false ∧ (tick s i).gpo2 = false := by
  rw [tick_auto_eq s i hE hM]
  unfold handleAutoLoopMode
  rw [if_pos ⟨hIn, hOut⟩]
  exact ⟨rfl, rfl, rfl, rfl⟩

/-- Witness for C3: AUTO state with direction IN, both end stops read
triggered. -/
theorem c3_dual_endstop_fault_stops_witness :
    (tick { initState with currentMode := MODE_AUTO_LOOP, cycleDirection := CYCLE_IN }
          (Inputs.mk false true true true true true true 100)).currentMode = MODE_MANUAL ∧
    (tick { initState with currentMode := MODE_AUTO_LOOP, cycleDirection := CYCLE_IN }
          (Inputs.mk false true true true true true true 100)).cycleDirection = CYCLE_STOPPED ∧
    (tick { initState with currentMode := MODE_AUTO_LOOP, cycleDirection := CYCLE_IN }
          (Inputs.mk false true true true true true true 100)).gpo1 = false ∧
    (tick { initState with currentMode := MODE_AUTO_LOOP, cycleDirection := CYCLE_IN }
          (Inputs.mk false true true true true true true 100)).gpo2 = false :=
  c3_dual_endstop_fault_stops _ _ rfl (by decide) rfl rfl

/-- C4: on any non-e-stop tick that dispatches to AUTO-mode handling with
timeout protection enabled, no dual end-stop fault, and elapsed time since
the cycle start strictly above `cycleTimeout`, that same tick forces mode
MANUAL, direction STOPPED and both outputs off. -/
theorem c4_cycle_timeout_stops (s : SysState) (i : Inputs)
    (hE : i.estopRaw = false)
    (hM : (commandStage s i).currentMode = MODE_AUTO_LOOP)
    (hD : ¬(i.endInRaw = true ∧ i.endOutRaw = true))
    (hEn : (commandStage s i).timeoutEnabled = true)
    (hTo : i.now - (commandStage s i).cycleStartTime > (commandStage s i).cycleTimeout) :
    (tick s i).currentMode = MODE_MANUAL ∧
    (tick s i).cycleDirection = CYCLE_STOPPED ∧
    (tick s i).gpo1 = false ∧ (tick s i).gpo2 = false := by
  rw [tick_auto_eq s i hE hM]
  unfold handleAutoLoopMode
  rw [if_neg hD, if_pos ⟨hEn, hTo⟩]
  exact ⟨rfl, rfl, rfl, rfl⟩

/-- Witness for C4: AUTO state 30001 ms after cycle start with the default
30000 ms timeout enabled and no end stop reached. -/
theorem c4_cycle_timeout_stops_witness :
    (tick { initState with currentMode := MODE_AUTO_LOOP, cycleDirection := CYCLE_OUT }
          (Inputs.mk false true true true true false false 30001)).currentMode = MODE_MANUAL ∧
    (tick { initState with currentMode := MODE_AUTO_LOOP, cycleDirection := CYCLE_OUT }
          (Inputs.mk false true true true true false false 30001)).cycleDirection = CYCLE_STOPPED ∧
    (tick { initState with currentMode := MODE_AUTO_LOOP, cycleDirection := CYCLE_OUT }
          (Inputs.mk false true true true true false false 30001)).gpo1 = false ∧
    (tick { initState with currentMode := MODE_AUTO_LOOP, cycleDirection := CYCLE_OUT }
          (Inputs.mk false true true true true false false 30001)).gpo2 = false :=
  c4_cycle_timeout_stops _ _ rfl (by decide) (by decide) (by decide) (by decide)

/-- C5: in AUTO with direction OUT, when end-stop-OUT triggers and no
fault condition holds, direction becomes IN on that tick with both
outputs off and both cycle timestamps reset; on a following AUTO tick
with no end stop, no fault and no timeout, the outputs stay off while
less than `CYCLE_DELAY` (500 ms) has elapsed since the reversal, and once
at least `CYCLE_DELAY` has elapsed the retract output (GPO1) is asserted
with the extend output off. -/
theorem c5_reversal_then_delay_then_retract (s : SysState) (i i2 : Inputs)
    (hE : i.estopRaw = false)
    (hM : (commandStage s i).currentMode = MODE_AUTO_LOOP)
    (hDir : (commandStage s i).cycleDirection = CYCLE_OUT)
    (hIn : i.endInRaw = false) (hOut : i.endOutRaw = true)
    (hTo : ¬((commandStage s i).timeoutEnabled = true ∧
             i.now - (commandStage s i).cycleStartTime > (commandStage s i).cycleTimeout))
    (hE2 : i2.estopRaw = false)
    (hM2 : (commandStage (tick s i) i2).currentMode = MODE_AUTO_LOOP)
    (hIn2 : i2.endInRaw = false) (hOut2 : i2.endOutRaw = false)
    (hTo2 : ¬((tick s i).timeoutEnabled = true ∧
              i2.now - (tick s i).cycleStartTime > (tick s i).cycleTimeout)) :
    (tick s i).cycleDirection = CYCLE_IN ∧
    (tick s i).currentMode = MODE_AUTO_LOOP ∧
    (tick s i).gpo1 = false ∧ (tick s i).gpo2 = false ∧
    (tick s i).lastCycleTime = i.now ∧
    (tick s i).cycleStartTime = i.now ∧
    (i2.now - i.now < CYCLE_DELAY →
      (tick (tick s i) i2).gpo1 = false ∧ (tick (tick s i) i2).gpo2 = false ∧
      (tick (tick s i) i2).cycleDirection = CYCLE_IN) ∧
    (CYCLE_DELAY ≤ i2.now - i.now →
      (tick (tick s i) i2).gpo1 = true ∧ (tick (tick s i) i2).gpo2 = false ∧
      (tick (tick s i) i2).cycleDirection = CYCLE_IN) := by
  obtain ⟨hr1, hr2, hr3, hr4, hr5, hr6⟩ := autoReversalStep_out (commandStage s i) i hDir hOut
  have h1 : tick s i = applyAutoOutputs (autoReversalStep (commandStage s i) i) i.now := by
    rw [tick_auto_eq s i hE hM, handleAutoLoopMode_normal _ _ (by simp [hIn]) hTo]
  have hdel : i.now - (autoReversalStep (commandStage s i) i).lastCycleTime < CYCLE_DELAY := by
    rw [hr2]
    simp [CYCLE_DELAY]
  have h1' : tick s i
      = { autoReversalStep (commandStage s i) i with gpo1 := false, gpo2 := false } := by
    rw [h1, applyAutoOutputs_delay _ _ hdel]
  have f_dir : (tick s i).cycleDirection = CYCLE_IN := by rw [h1']; exact hr1
  have f_mode : (tick s i).currentMode = MODE_AUTO_LOOP := by
    rw [h1']
    exact hr4.trans hM
  have f_gpo1 : (tick s i).gpo1 = false := by rw [h1']
  have f_gpo2 : (tick s i).gpo2 = false := by rw [h1']
  have f_lct : (tick s i).lastCycleTime = i.now := by rw [h1']; exact hr2
  have f_cst : (tick s i).cycleStartTime = i.now := by rw [h1']; exact hr3
  obtain ⟨g_dir, g_lct, g_cst, g_ten, g_cto⟩ :=
    commandStage_fields_of_auto (tick s i) i2 f_mode hM2
  have hT2 : ¬((commandStage (tick s i) i2).timeoutEnabled = true ∧
      i2.now - (commandStage (tick s i) i2).cycleStartTime
        > (commandStage (tick s i) i2).cycleTimeout) := by
    rw [g_ten, g_cst, g_cto]
    exact hTo2
  have h2 : tick (tick s i) i2
      = applyAutoOutputs (autoReversalStep (commandStage (tick s i) i2) i2) i2.now := by
    rw [tick_auto_eq _ i2 hE2 hM2, handleAutoLoopMode_normal _ _ (by simp [hIn2]) hT2]
  have hdi : (commandStage (tick s i) i2).cycleDirection = CYCLE_IN := g_dir.trans f_dir
  have hnr : autoReversalStep (commandStage (tick s i) i2) i2 = commandStage (tick s i) i2 :=
    autoReversalStep_skip _ _ (by simp [hIn2]) (by simp [hOut2])
  have h2' : tick (tick s i) i2 = applyAutoOutputs (commandStage (tick s i) i2) i2.now := by
    rw [h2, hnr]
  have hlc : (commandStage (tick s i) i2).lastCycleTime = i.now := g_lct.trans f_lct
  refine ⟨f_dir, f_mode, f_gpo1, f_gpo2, f_lct, f_cst, ?_, ?_⟩
  · intro hlt
    have hx : i2.now - (commandStage (tick s i) i2).lastCycleTime < CYCLE_DELAY := by
      rw [hlc]; exact hlt
    rw [h2', applyAutoOutputs_delay _ _ hx]
    exact ⟨rfl, rfl, hdi⟩
  · intro hge
    have hx : ¬(i2.now - (commandStage (tick s i) i2).lastCycleTime < CYCLE_DELAY) := by
      rw [hlc]; omega
    rw [h2', applyAutoOutputs_in _ _ hx hdi]
    exact ⟨rfl, rfl, hdi⟩

/-- Witness for C5: reversal at 5000 ms, follow-up tick at 5600 ms. -/
theorem c5_reversal_then_delay_then_retract_witness :
    (tick c5S c5I).cycleDirection = CYCLE_IN ∧
    (tick c5S c5I).currentMode = MODE_AUTO_LOOP ∧
    (tick c5S c5I).gpo1 = false ∧ (tick c5S c5I).gpo2 = false ∧
    (tick c5S c5I).lastCycleTime = c5I.now ∧
    (tick c5S c5I).cycleStartTime = c5I.now ∧
    (c5I2.now - c5I.now < CYCLE_DELAY →
      (tick (tick c5S c5I) c5I2).gpo1 = false ∧ (tick (tick c5S c5I) c5I2).gpo2 = false ∧
      (tick (tick c5S c5I) c5I2).cycleDirection = CYCLE_IN) ∧
    (CYCLE_DELAY ≤ c5I2.now - c5I.now →
      (tick (tick c5S c5I) c5I2).gpo1 = true ∧ (tick (tick c5S c5I) c5I2).gpo2 = false ∧
      (tick (tick c5S c5I) c5I2).cycleDirection = CYCLE_IN) :=
  c5_reversal_then_delay_then_retract c5S c5I c5I2 rfl (by decide) (by decide) rfl rfl
    (by decide) rfl (by decide) rfl rfl (by decide)

/-- C6 counterexample: a reachable trace on which an AUTO→MANUAL mode
transition tick ends with the extend output asserted, so the outputs are
not off for even one tick after that mode transition.  From boot: press
"start auto" (ticks at 100 ms and 200 ms), run AUTO until extend is on
(tick at 800 ms), then press manual-extend; at the 900 ms tick the press
edge exits AUTO, yet the manual handler re-asserts extend on that very
tick. -/
theorem c6_same_tick_output_counterexample :
    c6S3.currentMode = MODE_AUTO_LOOP ∧
    (tick c6S3 c6I4).currentMode = MODE_MANUAL ∧
    (tick c6S3 c6I4).gpo2 = true := by decide

/-- C6 amended: after a MANUAL→AUTO mode transition, and after any
direction transition on a tick that remains in AUTO, both outputs are off
on the transition tick itself.  (Transitions into MANUAL — manual
override or safety shutdown — and direction changes made by the
manual-mode handler can coincide with an output being asserted on the
same tick, as the counterexample shows.) -/
theorem c6_auto_transition_quiescence_amended (s : SysState) (i : Inputs)
    (h : (s.currentMode = MODE_MANUAL ∧ (tick s i).currentMode = MODE_AUTO_LOOP) ∨
         (s.currentMode = MODE_AUTO_LOOP ∧ (tick s i).currentMode = MODE_AUTO_LOOP ∧
          (tick s i).cycleDirection ≠ s.cycleDirection)) :
    (tick s i).gpo1 = false ∧ (tick s i).gpo2 = false := by
  by_cases hE : i.estopRaw = true
  · have hmode : (tick s i).currentMode = MODE_MANUAL := by
      rw [tick_estop_eq s i hE]
    rcases h with ⟨h1, h2⟩ | ⟨h1, h2, h3⟩ <;> rw [hmode] at h2 <;> exact absurd h2 (by decide)
  · have hE' : i.estopRaw = false := by
      cases hx : i.estopRaw
      · rfl
      · exact absurd hx hE
    by_cases hM : (commandStage s i).currentMode = MODE_MANUAL
    · have hmode : (tick s i).currentMode = MODE_MANUAL := by
        rw [tick_noestop_eq s i hE']
        unfold dispatchStage
        rw [if_pos hM, handleManualMode_mode]
        exact hM
      rcases h with ⟨h1, h2⟩ | ⟨h1, h2, h3⟩ <;> rw [hmode] at h2 <;> exact absurd h2 (by decide)
    · have hMA : (commandStage s i).currentMode = MODE_AUTO_LOOP := by
        cases hx : (commandStage s i).currentMode
        · exact absurd hx hM
        · rfl
      have hTA : tick s i = handleAutoLoopMode (commandStage s i) i := tick_auto_eq s i hE' hMA
      by_cases hD : i.endInRaw = true ∧ i.endOutRaw = true
      · have hmode : (tick s i).currentMode = MODE_MANUAL := by
          rw [hTA]
          unfold handleAutoLoopMode
          rw [if_pos hD]
          rfl
        rcases h with ⟨h1, h2⟩ | ⟨h1, h2, h3⟩ <;> rw [hmode] at h2 <;> exact absurd h2 (by decide)
      · by_cases hTm : (commandStage s i).timeoutEnabled = true ∧
            i.now - (commandStage s i).cycleStartTime > (commandStage s i).cycleTimeout
        · have hmode : (tick s i).currentMode = MODE_MANUAL := by
            rw [hTA]
            unfold handleAutoLoopMode
            rw [if_neg hD, if_pos hTm]
            rfl
          rcases h with ⟨h1, h2⟩ | ⟨h1, h2, h3⟩ <;> rw [hmode] at h2 <;>
            exact absurd h2 (by decide)
        · have hN : tick s i
              = applyAutoOutputs (autoReversalStep (commandStage s i) i) i.now := by
            rw [hTA, handleAutoLoopMode_normal _ _ hD hTm]
          rcases autoReversalStep_lct_cases (commandStage s i) i with hlc | hreq
          · have hx : i.now - (autoReversalStep (commandStage s i) i).lastCycleTime
                < CYCLE_DELAY := by
              rw [hlc]
              simp [CYCLE_DELAY]
            rw [hN, applyAutoOutputs_delay _ _ hx]
            exact ⟨rfl, rfl⟩
          · rcases h with ⟨h1, h2⟩ | ⟨h1, h2, h3⟩
            · obtain ⟨e1, e2, e3⟩ := commandStage_entry s i h1 hMA
              have hx : i.now - (autoReversalStep (commandStage s i) i).lastCycleTime
                  < CYCLE_DELAY := by
                rw [hreq, e1]
                simp [CYCLE_DELAY]
              rw [hN, applyAutoOutputs_delay _ _ hx]
              exact ⟨rfl, rfl⟩
            · exfalso
              obtain ⟨p1, p2, p3, p4, p5⟩ := commandStage_fields_of_auto s i h1 hMA
              have hdir : (tick s i).cycleDirection = s.cycleDirection := by
                rw [hN, (applyAutoOutputs_fields _ _).1, hreq, p1]
              exact h3 hdir

/-- Witness for amended C6: a MANUAL→AUTO entry tick with the start edge
latched keeps both outputs off. -/
theorem c6_auto_transition_quiescence_amended_witness :
    (tick c6WS c6WI).gpo1 = false ∧ (tick c6WS c6WI).gpo2 = false :=
  c6_auto_transition_quiescence_amended c6WS c6WI (Or.inl ⟨rfl, by decide⟩)

/-- C7: a start-auto edge in MANUAL (with no other command edge, no end
stop and no e-stop) enters AUTO on that tick, defaulting direction to OUT
only when it was STOPPED and otherwise resuming the recorded direction,
and records the cycle-start timestamp; and an AUTO→MANUAL exit via a
stop-auto edge (with manual switches released and no end stop) retains
the direction, so a later AUTO entry resumes it rather than resetting. -/
theorem c7_auto_entry_resumes_direction (s : SysState) (i : Inputs)
    (s2 : SysState) (i2 : Inputs)
    (hE : i.estopRaw = false)
    (hMan : s.currentMode = MODE_MANUAL)
    (hC : (updateButtonState s.inputC i.rawC i.now).pressed = true)
    (hA : (updateButtonState s.inputA i.rawA i.now).pressed = false)
    (hB : (updateButtonState s.inputB i.rawB i.now).pressed = false)
    (hD : (updateButtonState s.inputD i.rawD i.now).pressed = false)
    (hIn : i.endInRaw = false) (hOut : i.endOutRaw = false)
    (hE2 : i2.estopRaw = false)
    (hAuto : s2.currentMode = MODE_AUTO_LOOP)
    (hD2 : (updateButtonState s2.inputD i2.rawD i2.now).pressed = true)
    (hA2 : i2.rawA = true) (hB2 : i2.rawB = true)
    (hIn2 : i2.endInRaw = false) (hOut2 : i2.endOutRaw = false) :
    ((tick s i).currentMode = MODE_AUTO_LOOP ∧
     (tick s i).cycleDirection =
       (if s.cycleDirection = CYCLE_STOPPED then CYCLE_OUT else s.cycleDirection) ∧
     (tick s i).cycleStartTime = i.now) ∧
    ((tick s2 i2).currentMode = MODE_MANUAL ∧
     (tick s2 i2).cycleDirection = s2.cycleDirection ∧
     (tick s2 i2).gpo1 = false ∧ (tick s2 i2).gpo2 = false) := by
  obtain ⟨m1, m2, m3, m4⟩ := commandStage_start_edge s i hMan hC hA hB hD
  have hT : ¬((commandStage s i).timeoutEnabled = true ∧
      i.now - (commandStage s i).cycleStartTime > (commandStage s i).cycleTimeout) := by
    rw [m4]
    simp
  have hN : tick s i = applyAutoOutputs (autoReversalStep (commandStage s i) i) i.now := by
    rw [tick_auto_eq s i hE m1, handleAutoLoopMode_normal _ _ (by simp [hIn]) hT]
  have hskip : autoReversalStep (commandStage s i) i = commandStage s i :=
    autoReversalStep_skip _ _ (by simp [hIn]) (by simp [hOut])
  have hdel : i.now - (autoReversalStep (commandStage s i) i).lastCycleTime < CYCLE_DELAY := by
    rw [hskip, m3]
    simp [CYCLE_DELAY]
  have h1 : tick s i = { commandStage s i with gpo1 := false, gpo2 := false } := by
    rw [hN, applyAutoOutputs_delay _ _ hdel, hskip]
  refine ⟨⟨?_, ?_, ?_⟩, ?_⟩
  · rw [h1]; exact m1
  · rw [h1]; exact m2
  · rw [h1]; exact m4
  · obtain ⟨x1, x2, x3, x4⟩ := commandStage_stop_edge s2 i2 hAuto hD2
    have h2 : tick s2 i2 = handleManualMode (commandStage s2 i2) i2 := by
      rw [tick_noestop_eq s2 i2 hE2]
      unfold dispatchStage
      rw [if_pos x1]
    rw [h2, handleManualMode_idle _ _ hA2 hB2 hIn2 hOut2]
    exact ⟨x1, x2, rfl, rfl⟩

/-- Witness for C7: entry at 10 ms resuming direction IN; exit at 20 ms
retaining direction OUT. -/
theorem c7_auto_entry_resumes_direction_witness :
    ((tick c7S c7I).currentMode = MODE_AUTO_LOOP ∧
     (tick c7S c7I).cycleDirection =
       (if c7S.cycleDirection = CYCLE_STOPPED then CYCLE_OUT else c7S.cycleDirection) ∧
     (tick c7S c7I).cycleStartTime = c7I.now) ∧
    ((tick c7S2 c7I2).currentMode = MODE_MANUAL ∧
     (tick c7S2 c7I2).cycleDirection = c7S2.cycleDirection ∧
     (tick c7S2 c7I2).gpo1 = false ∧ (tick c7S2 c7I2).gpo2 = false) :=
  c7_auto_entry_resumes_direction c7S c7I c7S2 c7I2 rfl rfl (by decide) (by decide)
    (by decide) (by decide) rfl rfl rfl rfl (by decide) rfl rfl rfl rfl

/-- C10: "mode AUTO implies direction is IN or OUT" is an invariant of
the control loop: it holds at boot and is preserved by every tick (every
path that sets direction STOPPED also forces mode MANUAL, and AUTO entry
replaces STOPPED with OUT). -/
theorem c10_auto_mode_never_stopped (s : SysState) (i : Inputs)
    (hInv : s.currentMode = MODE_AUTO_LOOP → s.cycleDirection ≠ CYCLE_STOPPED) :
    (initState.currentMode = MODE_AUTO_LOOP → initState.cycleDirection ≠ CYCLE_STOPPED) ∧
    ((tick s i).currentMode = MODE_AUTO_LOOP → (tick s i).cycleDirection ≠ CYCLE_STOPPED) := by
  refine ⟨by decide, ?_⟩
  intro hmode
  by_cases hE : i.estopRaw = true
  · rw [tick_estop_eq s i hE] at hmode
    simp at hmode
  · have hE' : i.estopRaw = false := by
      cases hx : i.estopRaw
      · rfl
      · exact absurd hx hE
    by_cases hM : (commandStage s i).currentMode = MODE_MANUAL
    · have hm : (tick s i).currentMode = MODE_MANUAL := by
        rw [tick_noestop_eq s i hE']
        unfold dispatchStage
        rw [if_pos hM, handleManualMode_mode]
        exact hM
      rw [hm] at hmode
      exact absurd hmode (by decide)
    · have hMA : (commandStage s i).currentMode = MODE_AUTO_LOOP := by
        cases hx : (commandStage s i).currentMode
        · exact absurd hx hM
        · rfl
      have hTA : tick s i = handleAutoLoopMode (commandStage s i) i := tick_auto_eq s i hE' hMA
      have hcdir : (commandStage s i).cycleDirection ≠ CYCLE_STOPPED := by
        cases hsm : s.currentMode
        · obtain ⟨e1, e2, e3⟩ := commandStage_entry s i hsm hMA
          rw [e3]
          by_cases hsd : s.cycleDirection = CYCLE_STOPPED
          · rw [if_pos hsd]
            decide
          · rw [if_neg hsd]
            exact hsd
        · obtain ⟨p1, p2, p3, p4, p5⟩ := commandStage_fields_of_auto s i hsm hMA
          rw [p1]
          exact hInv hsm
      by_cases hD : i.endInRaw = true ∧ i.endOutRaw = true
      · have hm : (tick s i).currentMode = MODE_MANUAL := by
          rw [hTA]
          unfold handleAutoLoopMode
          rw [if_pos hD]
          rfl
        rw [hm] at hmode
        exact absurd hmode (by decide)
      · by_cases hTm : (commandStage s i).timeoutEnabled = true ∧
            i.now - (commandStage s i).cycleStartTime > (commandStage s i).cycleTimeout
        · have hm : (tick s i).currentMode = MODE_MANUAL := by
            rw [hTA]
            unfold handleAutoLoopMode
            rw [if_neg hD, if_pos hTm]
            rfl
          rw [hm] at hmode
          exact absurd hmode (by decide)
        · have hN : tick s i
              = applyAutoOutputs (autoReversalStep (commandStage s i) i) i.now := by
            rw [hTA, handleAutoLoopMode_normal _ _ hD hTm]
          rw [hN, (applyAutoOutputs_fields _ _).1]
          exact autoReversalStep_dir_ne_stopped _ _ hcdir

/-- Witness for C10 at the boot state and an idle input sample. -/
theorem c10_auto_mode_never_stopped_witness :
    (initState.currentMode = MODE_AUTO_LOOP → initState.cycleDirection ≠ CYCLE_STOPPED) ∧
    ((tick initState (idleInputs 0)).currentMode = MODE_AUTO_LOOP →
      (tick initState (idleInputs 0)).cycleDirection ≠ CYCLE_STOPPED) :=
  c10_auto_mode_never_stopped initState (idleInputs 0) (by decide)

/-- C9: a raw command signal oscillating faster than the 50 ms debounce
window never changes the debounced stable level and never produces a
press-edge event; and on any chronological run, consecutive press edges
of a channel are more than one debounce window apart, so no channel
produces more than one edge per debounce window. -/
theorem c9_debounce_window (b : ButtonState) (samples : List (Bool × Nat)) :
    (fastOsc b.lastState b.lastDebounceTime samples = true →
      (debounceRun b samples).currentState = b.currentState ∧
      (debounceRun b samples).pressed = b.pressed ∧
      edgeTimes b samples = []) ∧
    (chron b.lastDebounceTime samples = true →
      List.Chain' (fun x y => x + DEBOUNCE_DELAY < y) (edgeTimes b samples)) :=
  ⟨fastOsc_no_change samples b, edgeTimes_chain samples b b.lastDebounceTime⟩

/-- Witness for C9: a 10 ms square wave into a released channel. -/
theorem c9_debounce_window_witness :
    ((debounceRun initButton oscSamples).currentState = initButton.currentState ∧
     (debounceRun initButton oscSamples).pressed = initButton.pressed ∧
     edgeTimes initButton oscSamples = []) ∧
    List.Chain' (fun x y => x + DEBOUNCE_DELAY < y) (edgeTimes initButton oscSamples) :=
  ⟨(c9_debounce_window initButton oscSamples).1 (by decide),
   (c9_debounce_window initButton oscSamples).2 (by decide)⟩

/-- C8: recording a stroke duration below 100 ms leaves the telemetry
state entirely unchanged; recording one of at least 100 ms writes it into
the next slot of the capacity-20 circular buffer (appending while
filling, evicting the oldest entry once full), caps the fill count at 20,
updates `lastDuration`, and recomputes `avgDuration` as the integer mean
(32-bit wrapping sum divided by count) of all filled slots. -/
theorem c8_recordStroke (st : Stats) (d : Nat) (hwf : StatsWf st) :
    (d < 100 → updateStats st d = st) ∧
    (100 ≤ d →
      (updateStats st d).lastDuration = d ∧
      (updateStats st d).cycleCount = min (st.cycleCount + 1) 20 ∧
      histList (updateStats st d)
        = (if st.cycleCount < 20 then histList st ++ [d] else (histList st).tail ++ [d]) ∧
      (updateStats st d).avgDuration
        = ((histList (updateStats st d)).sum % ULONG_MOD) / (updateStats st d).cycleCount) := by
  obtain ⟨hlen, hidx, hcle, halign⟩ := hwf
  constructor
  · intro hlt
    unfold updateStats
    rw [if_pos hlt]
  · intro hge
    have hnot : ¬(d < 100) := by omega
    by_cases hc : st.cycleCount < 20
    · have hieq : st.cycleIndex = st.cycleCount := halign hc
      have hst : updateStats st d = ⟨st.cycleDurations.set st.cycleIndex d,
          (st.cycleIndex + 1) % 20, st.cycleCount + 1, d,
          sumUL ((st.cycleDurations.set st.cycleIndex d).take (st.cycleCount + 1))
            / (st.cycleCount + 1)⟩ := by
        unfold updateStats
        rw [if_neg hnot, if_pos hc]
      have h1 : histList (updateStats st d)
          = (st.cycleDurations.set st.cycleIndex d).take (st.cycleCount + 1) := by
        rw [hst]
        exact histList_start_zero _ (by dsimp only; rw [List.length_set]; exact hlen)
          (by dsimp only; omega) (by dsimp only; intro h20x; omega)
      have h2 : histList st = st.cycleDurations.take st.cycleCount :=
        histList_start_zero st hlen (by omega) (fun h => absurd hc h)
      refine ⟨by rw [hst], ?_, ?_, ?_⟩
      · rw [hst]
        dsimp only
        omega
      · rw [h1, h2, if_pos hc, hieq]
        exact take_set_append _ _ _ (by omega)
      · rw [h1, hst]
        dsimp only
        rw [sumUL_eq]
    · have h20 : st.cycleCount = 20 := by omega
      have hst : updateStats st d = ⟨st.cycleDurations.set st.cycleIndex d,
          (st.cycleIndex + 1) % 20, st.cycleCount, d,
          sumUL ((st.cycleDurations.set st.cycleIndex d).take st.cycleCount)
            / st.cycleCount⟩ := by
        unfold updateStats
        rw [if_neg hnot, if_neg hc]
      have hdl : (st.cycleDurations.set st.cycleIndex d).length = 20 := by
        rw [List.length_set]
        exact hlen
      have h1 : histList (updateStats st d)
          = (st.cycleDurations.set st.cycleIndex d).rotate ((st.cycleIndex + 1) % 20) := by
        rw [hst]
        exact histList_full _ (by dsimp only; exact hdl) (by dsimp only; exact h20)
      have h2 : histList st = st.cycleDurations.rotate st.cycleIndex := histList_full st hlen h20
      refine ⟨by rw [hst], ?_, ?_, ?_⟩
      · rw [hst]
        dsimp only
        omega
      · rw [h1, h2, if_neg hc]
        exact rotate_set_tail _ _ _ hlen hidx
      · rw [h1, hst]
        dsimp only
        rw [sumUL_eq, h20, List.take_of_length_le (le_of_eq hdl),
          (List.rotate_perm _ _).sum_eq]

/-- Witness for C8: recording a 4000 ms stroke into empty statistics. -/
theorem c8_recordStroke_witness :
    (4000 < 100 → updateStats initStats 4000 = initStats) ∧
    (100 ≤ 4000 →
      (updateStats initStats 4000).lastDuration = 4000 ∧
      (updateStats initStats 4000).cycleCount = min (initStats.cycleCount + 1) 20 ∧
      histList (updateStats initStats 4000)
        = (if initStats.cycleCount < 20 then histList initStats ++ [4000]
           else (histList initStats).tail ++ [4000]) ∧
      (updateStats initStats 4000).avgDuration
        = ((histList (updateStats initStats 4000)).sum % ULONG_MOD)
            / (updateStats initStats 4000).cycleCount) :=
  c8_recordStroke initStats 4000 ⟨by decide, by decide, by decide, fun _ => rfl⟩

/-- Witness for C2: e-stop asserted in a running AUTO state. -/
theorem c2_estop_forces_safe_state_witness :
    tick { initState with currentMode := MODE_AUTO_LOOP
                          cycleDirection := CYCLE_IN, gpo1 := true }
         (Inputs.mk true true true true true false false 5000) =
      { { initState with currentMode := MODE_AUTO_LOOP
                         cycleDirection := CYCLE_IN, gpo1 := true } with
          gpo1 := false, gpo2 := false
          currentMode := MODE_MANUAL
          cycleDirection := CYCLE_STOPPED
          isEstopActive := true } :=
  c2_estop_forces_safe_state _ _ rfl

end GroutPump
